import Mathlib

/-
Verification development for the event-flow repository (EventHub).
The definitions below are a shallow embedding of the registration and
access-control core: the database schema and row-level-security policies
from supabase/migrations, the booking handler from
src/components/Events/EventDetailModal.tsx, the cancellation handler from
the tickets page, the profile-update path from
src/components/Profile/ProfilePage.tsx, and the identity-provisioning
trigger function handle_new_user in its successive migration versions.

Conventions: UUIDs are modelled as Nat, timestamps as Int, SQL TEXT as
String.  Display-only columns that no logic reads (title, description,
venue, address, price, banner_url, seat_number, created_at, updated_at)
are omitted from the records.  Fallible SQL statements return Except.
-/

namespace EventFlow

-- Enum types from 20250120120000_event_management_schema.sql lines 37-40.
inductive UserRole
  | organizer
  | volunteer
  | attendee
deriving DecidableEq, Repr

inductive EventStatus
  | draft
  | published
  | ongoing
  | completed
  | cancelled
deriving DecidableEq, Repr

inductive RegistrationStatus
  | pending
  | confirmed
  | cancelled
  | attended
deriving DecidableEq, Repr

inductive TaskStatus
  | pending
  | in_progress
  | completed
deriving DecidableEq, Repr

-- profiles table (schema lines 43-54); company and skills are kept
-- because the profile-update form writes them.
structure Profile where
  id : Nat
  email : String
  full_name : String
  phone : Option String
  role : UserRole
  company : Option String
  skills : List String
deriving DecidableEq, Repr

-- events table (schema lines 57-73).
structure Event where
  id : Nat
  organizer_id : Nat
  date_time : Int
  capacity : Nat
  status : EventStatus
deriving DecidableEq, Repr

-- event_registrations table (schema lines 76-87).
structure Registration where
  id : Nat
  event_id : Nat
  attendee_id : Nat
  registration_date : Int
  status : RegistrationStatus
  ticket_number : String
  checked_in : Bool
  checked_in_at : Option Int
deriving DecidableEq, Repr

-- volunteer_assignments table (schema lines 90-97).
structure VolunteerAssignment where
  id : Nat
  event_id : Nat
  volunteer_id : Nat
deriving DecidableEq, Repr

-- event_tasks table (schema lines 100-110).
structure EventTask where
  id : Nat
  event_id : Nat
  volunteer_id : Option Nat
  status : TaskStatus
  completed_at : Option Int
deriving DecidableEq, Repr

-- The persistent store: one list per table.
structure DBState where
  profiles : List Profile
  events : List Event
  registrations : List Registration
  assignments : List VolunteerAssignment
  tasks : List EventTask
deriving DecidableEq, Repr

-- Errors surfaced by the database layer.  The application never defines
-- typed domain errors (no NotEligible, EventNotBookable, AlreadyRegistered
-- or CapacityExceeded value exists anywhere in the repository); these are
-- the PostgreSQL constraint failures the schema can raise.
inductive DBError
  | uniqueTicketViolation
  | uniquePairViolation
  | uniquePrimaryKeyViolation
  | notNullViolation
  | invalidEnumCast
  | foreignKeyViolation
deriving DecidableEq, Repr

instance {ε α : Type} [DecidableEq ε] [DecidableEq α] : DecidableEq (Except ε α) := fun x y =>
  match x, y with
  | Except.error a, Except.error b =>
    if h : a = b then Decidable.isTrue (by subst h; rfl)
    else Decidable.isFalse (fun hh => h (by injection hh))
  | Except.ok a, Except.ok b =>
    if h : a = b then Decidable.isTrue (by subst h; rfl)
    else Decidable.isFalse (fun hh => h (by injection hh))
  | Except.error _, Except.ok _ => Decidable.isFalse (fun hh => by injection hh)
  | Except.ok _, Except.error _ => Decidable.isFalse (fun hh => by injection hh)

-- Outcome of the booking handler as observed by the caller:
-- EventDetailModal.tsx line 17 returns silently for a missing profile or a
-- non-attendee role; line 37 alerts success; lines 39-41 catch any error
-- and alert a generic failure message.
inductive RegisterResult
  | silentReturn
  | registered
  | registrationFailed
deriving DecidableEq, Repr

-- INSERT INTO event_registrations, with the table constraints of schema
-- lines 76-87: UNIQUE ticket_number, UNIQUE(event_id, attendee_id), and
-- the two foreign keys.  Unique-index violations fire during the row
-- insertion, before the FK triggers.
def insertRegistration (s : DBState) (r : Registration) : Except DBError DBState :=
  if s.registrations.any (fun x => x.ticket_number == r.ticket_number) then
    Except.error DBError.uniqueTicketViolation
  else if s.registrations.any (fun x => x.event_id == r.event_id && x.attendee_id == r.attendee_id) then
    Except.error DBError.uniquePairViolation
  else if !(s.events.any (fun e => e.id == r.event_id)) then
    Except.error DBError.foreignKeyViolation
  else if !(s.profiles.any (fun p => p.id == r.attendee_id)) then
    Except.error DBError.foreignKeyViolation
  else
    Except.ok { s with registrations := s.registrations ++ [r] }

-- handleRegister, EventDetailModal.tsx lines 16-45.  The ticket number is
-- generated nondeterministically on the client (Date.now plus Math.random,
-- line 23), so it is a parameter here, as are the row id the database
-- generates and the wall-clock registration date.  The handler checks only
-- that a profile exists and has the attendee role; it then inserts a row
-- with status confirmed.  Any database error is caught and reported as a
-- generic failure (lines 39-41), leaving the store unchanged.
def handleRegister (s : DBState) (profile : Option Profile) (event : Event)
    (ticketNumber : String) (now : Int) (freshId : Nat) : RegisterResult × DBState :=
  match profile with
  | none => (RegisterResult.silentReturn, s)
  | some p =>
    if p.role = UserRole.attendee then
      match insertRegistration s
        { id := freshId
          event_id := event.id
          attendee_id := p.id
          registration_date := now
          status := RegistrationStatus.confirmed
          ticket_number := ticketNumber
          checked_in := false
          checked_in_at := none } with
      | Except.ok s2 => (RegisterResult.registered, s2)
      | Except.error _ => (RegisterResult.registrationFailed, s)
    else (RegisterResult.silentReturn, s)

-- handleCancelBooking, tickets page (src/unnamed/part_000 lines 131-153):
-- UPDATE event_registrations SET status = cancelled WHERE id = ticketId.
-- The row is kept; only its status changes.
def handleCancelBooking (s : DBState) (ticketId : Nat) : DBState :=
  { s with registrations := s.registrations.map (fun r =>
      if r.id == ticketId then { r with status := RegistrationStatus.cancelled } else r) }

-- handleDeleteEvent, events page (EventDetailModal.tsx companion component
-- lines 292-308): DELETE FROM events WHERE id = eventId.  The schema
-- declares ON DELETE CASCADE on the event_id foreign keys of
-- event_registrations, volunteer_assignments and event_tasks, so every row
-- referencing the deleted event is removed with it.
def handleDeleteEvent (s : DBState) (eventId : Nat) : DBState :=
  { profiles := s.profiles
    events := s.events.filter (fun e => e.id != eventId)
    registrations := s.registrations.filter (fun r => r.event_id != eventId)
    assignments := s.assignments.filter (fun a => a.event_id != eventId)
    tasks := s.tasks.filter (fun t => t.event_id != eventId) }

-- The occupied-seat count of the specification: confirmed or attended
-- registrations of one event.  The application never computes this
-- server-side; it is the measurement function used to state the claims.
def occupiedCount (s : DBState) (eid : Nat) : Nat :=
  (s.registrations.filter (fun r =>
    r.event_id == eid &&
      (r.status == RegistrationStatus.confirmed || r.status == RegistrationStatus.attended))).length

-- All stored ticket numbers, for the uniqueness claims.
def ticketNumbers (s : DBState) : List String :=
  s.registrations.map (fun r => r.ticket_number)

-- Row-level-security policy "Users can update their own profile".
-- The schema version (lines 180-181) has USING (auth.uid() = id); the
-- definitive-fix migration (lines 98-99) adds WITH CHECK (auth.uid() = id).
-- Neither clause constrains which columns change: the policy admits any
-- self-update, whatever the new row contains.
def profileUpdatePermitted (uid : Nat) (old updated : Profile) : Bool :=
  uid == old.id && uid == updated.id

-- The update payload built by handleSubmit in ProfilePage.tsx lines 36-56:
-- full_name, email, phone, company and the parsed skills list.  The role
-- column is not part of the payload.  (The comma-splitting of the skills
-- string is client-side display logic; the payload carries the parsed
-- list.)
def applyHandleSubmitUpdate (p : Profile) (full_name email phone company : String)
    (skills : List String) : Profile :=
  { p with
    full_name := full_name
    email := email
    phone := some phone
    company := some company
    skills := skills }

-- get_user_role, definitive-fix migration lines 39-47: the role stored on
-- the caller's profile, if any.
def get_user_role (s : DBState) (uid : Nat) : Option UserRole :=
  (s.profiles.find? (fun p => p.id == uid)).map (fun p => p.role)

-- SELECT policies on events.  PostgreSQL combines permissive policies of
-- one command with OR, and no migration ever drops any of these.

-- "Anyone can view published events", schema lines 184-185.
def policy_anyone_can_view_published (uid : Nat) (e : Event) : Bool :=
  e.status == EventStatus.published || uid == e.organizer_id

-- "Organizers can manage their own events" (FOR ALL, hence also SELECT),
-- schema lines 187-188.
def policy_organizers_manage_events (uid : Nat) (e : Event) : Bool :=
  uid == e.organizer_id

-- "Events are public to view", definitive-fix migration lines 103-104:
-- USING (true).
def policy_events_are_public_to_view (_uid : Nat) (_e : Event) : Bool :=
  true

-- "Organizers can manage their own events", definitive-fix migration
-- lines 105-107: organizer role and ownership.
def policy_organizers_manage_events_fix (s : DBState) (uid : Nat) (e : Event) : Bool :=
  get_user_role s uid == some UserRole.organizer && e.organizer_id == uid

-- Effective read permission on an event row: OR of the permissive SELECT
-- policies present in the final migration state.
def canSelectEvent (s : DBState) (uid : Nat) (e : Event) : Bool :=
  policy_anyone_can_view_published uid e ||
  policy_organizers_manage_events uid e ||
  policy_events_are_public_to_view uid e ||
  policy_organizers_manage_events_fix s uid e

-- Payload of the identity-provider "user created" event consumed by the
-- handle_new_user trigger: auth.users row id, email, and the raw signup
-- metadata fields, each possibly absent.
structure AuthUser where
  id : Nat
  email : String
  raw_full_name : Option String
  raw_role : Option String
  raw_phone : Option String
deriving DecidableEq, Repr

-- The SQL cast (text)::user_role: NULL casts to NULL, a string outside the
-- enum raises invalid input value for the enum.
def castUserRole : Option String → Except DBError (Option UserRole)
  | none => Except.ok none
  | some t =>
    if t == "organizer" then Except.ok (some UserRole.organizer)
    else if t == "volunteer" then Except.ok (some UserRole.volunteer)
    else if t == "attendee" then Except.ok (some UserRole.attendee)
    else Except.error DBError.invalidEnumCast

-- INSERT INTO profiles with explicit values for full_name and role.  Both
-- columns are NOT NULL; an explicit NULL in the VALUES list bypasses the
-- role column default and violates NOT NULL.  The id column is the primary
-- key.  NOT NULL fires when the row is formed, before the unique index.
def insertProfile (s : DBState) (uid : Nat) (email : String)
    (full_name : Option String) (role : Option UserRole) (phone : Option String) :
    Except DBError DBState :=
  match full_name, role with
  | some fn, some r =>
    if s.profiles.any (fun p => p.id == uid) then
      Except.error DBError.uniquePrimaryKeyViolation
    else
      Except.ok { s with profiles := s.profiles ++
        [{ id := uid, email := email, full_name := fn, phone := phone, role := r,
           company := none, skills := [] }] }
  | _, _ => Except.error DBError.notNullViolation

-- handle_new_user, final version: 20250727120000_fix_user_creation_trigger
-- lines 30-47.  Inserts the metadata fields verbatim: no COALESCE default
-- for full_name or role.
def handle_new_user (s : DBState) (u : AuthUser) : Except DBError DBState :=
  match castUserRole u.raw_role with
  | Except.error e => Except.error e
  | Except.ok r => insertProfile s u.id u.email u.raw_full_name r u.raw_phone

-- handle_new_user, original version: schema migration lines 132-144.
-- COALESCE(full_name, email) and COALESCE((role)::user_role, attendee);
-- phone is not inserted.  The enum cast still runs before COALESCE, so an
-- invalid role string raises even here.
def handle_new_user_orig (s : DBState) (u : AuthUser) : Except DBError DBState :=
  match castUserRole u.raw_role with
  | Except.error e => Except.error e
  | Except.ok r =>
    insertProfile s u.id u.email (some (u.raw_full_name.getD u.email))
      (some (r.getD UserRole.attendee)) none

-- Referential integrity of the store: every registration, assignment and
-- task references an existing event.
def refIntegrity (s : DBState) : Bool :=
  s.registrations.all (fun r => s.events.any (fun e => e.id == r.event_id)) &&
  s.assignments.all (fun a => s.events.any (fun e => e.id == a.event_id)) &&
  s.tasks.all (fun t => s.events.any (fun e => e.id == t.event_id))

-- Concrete fixtures used by the counterexamples and witnesses.

def profA : Profile :=
  { id := 1, email := "a@x.io", full_name := "Ann", phone := none,
    role := UserRole.attendee, company := none, skills := [] }

def profB : Profile :=
  { id := 2, email := "b@x.io", full_name := "Bob", phone := none,
    role := UserRole.attendee, company := none, skills := [] }

def orgProf : Profile :=
  { id := 3, email := "o@x.io", full_name := "Org", phone := none,
    role := UserRole.organizer, company := none, skills := [] }

-- A published event with capacity 1.
def ev1 : Event :=
  { id := 10, organizer_id := 3, date_time := 100, capacity := 1,
    status := EventStatus.published }

-- A published event with capacity 5.
def ev5 : Event :=
  { id := 20, organizer_id := 3, date_time := 100, capacity := 5,
    status := EventStatus.published }

-- A draft event.
def evDraft : Event :=
  { id := 30, organizer_id := 3, date_time := 100, capacity := 10,
    status := EventStatus.draft }

def s0 : DBState :=
  { profiles := [profA, profB, orgProf]
    events := [ev1, ev5, evDraft]
    registrations := []
    assignments := []
    tasks := [] }

-- The profile row obtained by escalating profA's role, as an update
-- payload would produce it.
def profAEscalated : Profile :=
  { profA with role := UserRole.organizer }

-- State after attendee A books event ev5 (registration row id 50).
def sBooked : DBState :=
  (handleRegister s0 (some profA) ev5 "TKT-C5A" 0 50).2

-- State after A cancels that booking: the row stays with status cancelled.
def sCancelled : DBState :=
  handleCancelBooking sBooked 50

-- A state holding one registration with ticket "TKT-X" on ev5, used for
-- the ticket-collision scenario.
def sTicketX : DBState :=
  (handleRegister s0 (some profA) ev5 "TKT-X" 0 60).2

-- A state whose profiles table already contains profA, used for the
-- duplicate identity-event scenario.
def sOnlyA : DBState :=
  { profiles := [profA], events := [], registrations := [], assignments := [], tasks := [] }

-- Re-delivered identity event for profA's identity, with complete and
-- valid metadata.
def uDupA : AuthUser :=
  { id := 1, email := "a@x.io", raw_full_name := some "Ann",
    raw_role := some "attendee", raw_phone := none }

-- Identity event whose metadata carries neither full_name nor role.
def uNoRole : AuthUser :=
  { id := 7, email := "n@x.io", raw_full_name := none, raw_role := none,
    raw_phone := none }

-- Identity event whose metadata carries a role outside the enum.
def uBadRole : AuthUser :=
  { id := 8, email := "m@x.io", raw_full_name := some "Mo",
    raw_role := some "admin", raw_phone := none }

-- The profile that the original schema trigger provisions for uNoRole:
-- full_name defaulted to the email, role defaulted to attendee.
def pNoRoleDefaulted : Profile :=
  { id := 7, email := "n@x.io", full_name := "n@x.io", phone := none,
    role := UserRole.attendee, company := none, skills := [] }

-- A small state with one event and rows of all three referencing tables,
-- used as the cascade-delete witness.
def sCascade : DBState :=
  { profiles := [profA, orgProf]
    events := [ev1, ev5]
    registrations := [{ id := 70, event_id := 10, attendee_id := 1, registration_date := 0,
                        status := RegistrationStatus.attended, ticket_number := "TKT-70",
                        checked_in := true, checked_in_at := some 5 }]
    assignments := [{ id := 71, event_id := 10, volunteer_id := 2 }]
    tasks := [{ id := 72, event_id := 10, volunteer_id := some 2,
                status := TaskStatus.pending, completed_at := none }] }

/-- Claim C1: the spec asserts that the number of confirmed or attended
registrations of an event never exceeds its capacity, and that a booking
attempt at capacity is rejected with CapacityExceeded and inserts nothing.
The booking handler performs no capacity check at all: for the capacity-1
event ev1 a first booking by attendee A succeeds, and a second booking by
attendee B, made when the event is already full, also succeeds, leaving
two confirmed registrations against capacity 1.  No CapacityExceeded
rejection exists anywhere in the code. -/
theorem C1_overbooking_at_capacity :
    (handleRegister s0 (some profA) ev1 "TKT-A" 0 100).1 = RegisterResult.registered ∧
    occupiedCount (handleRegister s0 (some profA) ev1 "TKT-A" 0 100).2 ev1.id = ev1.capacity ∧
    (handleRegister (handleRegister s0 (some profA) ev1 "TKT-A" 0 100).2
        (some profB) ev1 "TKT-B" 0 101).1 = RegisterResult.registered ∧
    occupiedCount (handleRegister (handleRegister s0 (some profA) ev1 "TKT-A" 0 100).2
        (some profB) ev1 "TKT-B" 0 101).2 ev1.id = 2 ∧
    ev1.capacity = 1 := by
  decide

/-- Claim C2: the spec asserts that N concurrent bookings against capacity
C end with exactly C confirmed registrations and N minus C CapacityExceeded
rejections under every interleaving.  Each booking is a single
unconditional INSERT, so an interleaving of two requests is one of the two
serial orders; under both orders for N = 2 requests against the capacity-1
event ev1, both requests succeed and no request is rejected, leaving 2
confirmed registrations. -/
theorem C2_concurrent_overbooking_both_orders :
    (occupiedCount (handleRegister (handleRegister s0 (some profA) ev1 "TKT-A" 0 100).2
        (some profB) ev1 "TKT-B" 0 101).2 ev1.id = 2 ∧
      (handleRegister (handleRegister s0 (some profA) ev1 "TKT-A" 0 100).2
        (some profB) ev1 "TKT-B" 0 101).1 = RegisterResult.registered) ∧
    (occupiedCount (handleRegister (handleRegister s0 (some profB) ev1 "TKT-B" 0 102).2
        (some profA) ev1 "TKT-A" 0 103).2 ev1.id = 2 ∧
      (handleRegister (handleRegister s0 (some profB) ev1 "TKT-B" 0 102).2
        (some profA) ev1 "TKT-A" 0 103).1 = RegisterResult.registered) ∧
    ev1.capacity = 1 := by
  decide

/-- Claim C3: the spec asserts that no runtime operation can alter a
profile's role.  The row-level-security policy for profile updates checks
only that the actor updates their own row (USING and WITH CHECK both
compare auth.uid() with id), so a self-update whose payload sets
role to organizer is permitted and changes the role — while the
application's own profile form indeed never writes the role column. -/
theorem C3_role_escalation_permitted :
    profileUpdatePermitted profA.id profA profAEscalated = true ∧
    profAEscalated.role ≠ profA.role ∧
    profAEscalated.role = UserRole.organizer ∧
    (∀ (p : Profile) (fn em ph co : String) (sk : List String),
      (applyHandleSubmitUpdate p fn em ph co sk).role = p.role) := by
  refine ⟨by decide, by decide, by decide, ?_⟩
  intro p fn em ph co sk
  rfl

/-- Claim C7: the spec asserts that provisioning succeeds for every
payload, defaulting role to attendee and full_name to email.  The final
version of handle_new_user inserts the raw metadata without COALESCE: a
payload with no metadata raises a NOT NULL violation (the explicit NULL
bypasses the role column default), and a payload whose role is outside the
enum raises an invalid enum cast — while the original schema version of
the trigger still provisioned the defaulted profile for the same payload. -/
theorem C7_provisioning_fails_without_metadata :
    handle_new_user s0 uNoRole = Except.error DBError.notNullViolation ∧
    handle_new_user s0 uBadRole = Except.error DBError.invalidEnumCast ∧
    handle_new_user_orig s0 uNoRole =
      Except.ok { s0 with profiles := s0.profiles ++ [pNoRoleDefaulted] } := by
  decide

-- Helper: an insert whose (event, attendee) pair already occurs in the
-- table fails, whichever constraint fires first.
theorem insertRegistration_pair_dup (s : DBState) (r : Registration)
    (hdup : (s.registrations.any fun x => x.event_id == r.event_id && x.attendee_id == r.attendee_id) = true) :
    ∃ er, insertRegistration s r = Except.error er := by
  unfold insertRegistration
  by_cases h1 : (s.registrations.any fun x => x.ticket_number == r.ticket_number) = true
  · rw [if_pos h1]
    exact ⟨_, rfl⟩
  · rw [if_neg h1, if_pos hdup]
    exact ⟨_, rfl⟩

-- Helper: an insert whose ticket number already occurs in the table fails
-- with the ticket uniqueness violation.
theorem insertRegistration_ticket_dup (s : DBState) (r : Registration)
    (hdup : (s.registrations.any fun x => x.ticket_number == r.ticket_number) = true) :
    insertRegistration s r = Except.error DBError.uniqueTicketViolation := by
  unfold insertRegistration
  rw [if_pos hdup]

-- Helper: a successful insert appends exactly the new row, and its ticket
-- number was not present before.
theorem insertRegistration_ok (s : DBState) (r : Registration) (s2 : DBState)
    (h : insertRegistration s r = Except.ok s2) :
    (s.registrations.any fun x => x.ticket_number == r.ticket_number) = false ∧
    s2.registrations = s.registrations ++ [r] := by
  unfold insertRegistration at h
  split at h
  · exact absurd h (by simp)
  next h1 =>
    split at h
    · exact absurd h (by simp)
    · split at h
      · exact absurd h (by simp)
      · split at h
        · exact absurd h (by simp)
        · refine ⟨by simpa using h1, ?_⟩
          injection h with h2
          rw [← h2]

/-- Claim C4 counterexample: the claim asserts that a booking for an event
whose status is not published is rejected with the typed error
EventNotBookable and inserts nothing.  The booking handler never inspects
the event status: attendee A booking the draft event evDraft succeeds and
inserts a confirmed registration row. -/
theorem C4_counterexample :
    (handleRegister s0 (some profA) evDraft "TKT-D" 0 110).1 = RegisterResult.registered ∧
    (handleRegister s0 (some profA) evDraft "TKT-D" 0 110).2.registrations.length = 1 ∧
    evDraft.status ≠ EventStatus.published := by
  decide

/-- Claim C4 amended: a booking attempt by a non-attendee is a silent
no-op — no row inserted and no error of any kind surfaced — and the
booking handler reads nothing of the event beyond its id, so it performs
no status or start-time check at all; database failures surface only as a
single generic error. -/
theorem C4_amended :
    (∀ (s : DBState) (p : Profile) (e : Event) (t : String) (now : Int) (fresh : Nat),
      p.role ≠ UserRole.attendee →
      handleRegister s (some p) e t now fresh = (RegisterResult.silentReturn, s)) ∧
    (∀ (s : DBState) (pr : Option Profile) (e e2 : Event) (t : String) (now : Int) (fresh : Nat),
      e.id = e2.id →
      handleRegister s pr e t now fresh = handleRegister s pr e2 t now fresh) := by
  constructor
  · intro s p e t now fresh h
    simp [handleRegister, h]
  · intro s pr e e2 t now fresh h
    cases pr with
    | none => rfl
    | some p => simp only [handleRegister, h]

/-- Claim C4 witness: the organizer profile attempting to book ev1 is
silently ignored. -/
theorem C4_amended_witness :
    handleRegister s0 (some orgProf) ev1 "TKT-W" 0 9 = (RegisterResult.silentReturn, s0) :=
  C4_amended.1 s0 orgProf ev1 "TKT-W" 0 9 (by decide)

/-- Claim C5 counterexample: the claim asserts that after a registration
for (event, attendee) has been cancelled, a new booking by the same
attendee for the same event succeeds, capacity permitting.  After A books
ev5 and cancels, the cancelled row still occupies the unconditional
UNIQUE(event_id, attendee_id) constraint, so the re-booking fails even
though the occupied count is 0 of capacity 5. -/
theorem C5_counterexample :
    handleRegister sCancelled (some profA) ev5 "TKT-C5B" 0 51 =
      (RegisterResult.registrationFailed, sCancelled) ∧
    occupiedCount sCancelled ev5.id = 0 ∧
    ev5.capacity = 5 := by
  decide

/-- Claim C5 amended: a booking by an attendee is rejected — as a generic
failure, leaving the store unchanged — whenever any registration row for
the (event, attendee) pair exists, cancelled rows included; hence after a
cancellation the same attendee can never re-book the same event. -/
theorem C5_amended (s : DBState) (p : Profile) (e : Event) (t : String) (now : Int) (fresh : Nat)
    (hrole : p.role = UserRole.attendee)
    (hdup : (s.registrations.any fun r => r.event_id == e.id && r.attendee_id == p.id) = true) :
    handleRegister s (some p) e t now fresh = (RegisterResult.registrationFailed, s) := by
  simp only [handleRegister]
  rw [if_pos hrole]
  obtain ⟨er, her⟩ := insertRegistration_pair_dup s
    { id := fresh, event_id := e.id, attendee_id := p.id, registration_date := now,
      status := RegistrationStatus.confirmed, ticket_number := t, checked_in := false,
      checked_in_at := none } hdup
  rw [her]

/-- Claim C5 witness: the re-booking attempt after cancellation is refused
by the pair-uniqueness constraint. -/
theorem C5_amended_witness :
    handleRegister sCancelled (some profA) ev5 "TKT-C5C" 0 52 =
      (RegisterResult.registrationFailed, sCancelled) :=
  C5_amended sCancelled profA ev5 "TKT-C5C" 0 52 (by decide) (by decide)

/-- Claim C6 counterexample: the claim asserts that a generated ticket
identifier colliding with an existing one causes the booking to retry
generation rather than fail.  When B books ev5 and the client generates
the ticket "TKT-X" already stored for A, the single insert fails and the
handler reports a generic failure with the store unchanged — there is no
second attempt. -/
theorem C6_counterexample :
    "TKT-X" ∈ ticketNumbers sTicketX ∧
    handleRegister sTicketX (some profB) ev5 "TKT-X" 0 61 =
      (RegisterResult.registrationFailed, sTicketX) := by
  decide

/-- Claim C6 amended: ticket numbers of stored registrations are pairwise
distinct — the unique constraint preserves Nodup of the stored tickets
across any booking — but a collision between the freshly generated ticket
and a stored one makes the booking fail with a generic error and an
unchanged store, with no retry. -/
theorem C6_amended :
    (∀ (s : DBState) (pr : Option Profile) (e : Event) (t : String) (now : Int) (fresh : Nat),
      (ticketNumbers s).Nodup → (ticketNumbers (handleRegister s pr e t now fresh).2).Nodup) ∧
    (∀ (s : DBState) (p : Profile) (e : Event) (t : String) (now : Int) (fresh : Nat),
      p.role = UserRole.attendee → t ∈ ticketNumbers s →
      handleRegister s (some p) e t now fresh = (RegisterResult.registrationFailed, s)) := by
  constructor
  · intro s pr e t now fresh hnd
    cases pr with
    | none => exact hnd
    | some p =>
      by_cases hr : p.role = UserRole.attendee
      · cases hins : insertRegistration s
          { id := fresh, event_id := e.id, attendee_id := p.id, registration_date := now,
            status := RegistrationStatus.confirmed, ticket_number := t, checked_in := false,
            checked_in_at := none } with
        | error er =>
          simp only [handleRegister, hr, if_true, hins]
          exact hnd
        | ok s2 =>
          obtain ⟨hfree, hregs⟩ := insertRegistration_ok _ _ _ hins
          have hfree2 : (s.registrations.any fun x => x.ticket_number == t) = false := hfree
          have hnotmem : t ∉ ticketNumbers s := by
            intro hmem
            obtain ⟨x, hx, hxt⟩ := List.mem_map.mp hmem
            have : (s.registrations.any fun x => x.ticket_number == t) = true :=
              List.any_eq_true.mpr ⟨x, hx, by simp [hxt]⟩
            rw [hfree2] at this
            exact Bool.false_ne_true this
          simp only [handleRegister, hr, if_true, hins, ticketNumbers, hregs, List.map_append]
          rw [List.nodup_append]
          refine ⟨hnd, List.nodup_singleton _, ?_⟩
          intro a ha hb
          simp only [List.map_cons, List.map_nil, List.mem_singleton] at hb
          subst hb
          exact hnotmem ha
      · simp only [handleRegister, hr, if_false]
        exact hnd
  · intro s p e t now fresh hr hmem
    have hdup : (s.registrations.any fun x => x.ticket_number == t) = true := by
      obtain ⟨x, hx, hxt⟩ := List.mem_map.mp hmem
      exact List.any_eq_true.mpr ⟨x, hx, by simp [hxt]⟩
    simp only [handleRegister]
    rw [if_pos hr]
    rw [insertRegistration_ticket_dup s
      { id := fresh, event_id := e.id, attendee_id := p.id, registration_date := now,
        status := RegistrationStatus.confirmed, ticket_number := t, checked_in := false,
        checked_in_at := none } hdup]

/-- Claim C6 witness: booking with a fresh ticket preserves distinctness,
and booking with the stored ticket "TKT-X" fails without retry. -/
theorem C6_amended_witness :
    (ticketNumbers (handleRegister sTicketX (some profB) ev5 "TKT-Y" 0 62).2).Nodup ∧
    handleRegister sTicketX (some profB) ev5 "TKT-X" 0 63 =
      (RegisterResult.registrationFailed, sTicketX) :=
  ⟨C6_amended.1 sTicketX (some profB) ev5 "TKT-Y" 0 62 (by decide),
   C6_amended.2 sTicketX profB ev5 "TKT-X" 0 63 (by decide) (by decide)⟩

/-- Claim C8 counterexample: the claim asserts that re-delivery of a
new-identity event for an identity that already has a profile is an
idempotent no-op success.  The trigger performs a plain INSERT: for the
identity of profA, already provisioned, it raises the primary-key
uniqueness violation, aborting the signup rather than succeeding. -/
theorem C8_counterexample :
    handle_new_user sOnlyA uDupA = Except.error DBError.uniquePrimaryKeyViolation := by
  decide

/-- Claim C8 amended: re-delivering a new-identity event for an identity
that already has a profile always fails with an error — it creates no row
and alters no existing profile, but it surfaces as a failure instead of an
idempotent success. -/
theorem C8_amended (s : DBState) (u : AuthUser)
    (h : (s.profiles.any fun p => p.id == u.id) = true) :
    ∃ er, handle_new_user s u = Except.error er := by
  unfold handle_new_user
  cases hc : castUserRole u.raw_role with
  | error er => exact ⟨er, rfl⟩
  | ok r =>
    unfold insertProfile
    cases r with
    | none =>
      cases hf : u.raw_full_name with
      | none => exact ⟨DBError.notNullViolation, rfl⟩
      | some fn => exact ⟨DBError.notNullViolation, rfl⟩
    | some rr =>
      cases hf : u.raw_full_name with
      | none => exact ⟨DBError.notNullViolation, rfl⟩
      | some fn =>
        refine ⟨DBError.uniquePrimaryKeyViolation, ?_⟩
        show (if (s.profiles.any fun p => p.id == u.id) = true then
            Except.error DBError.uniquePrimaryKeyViolation
          else Except.ok ({ s with profiles := s.profiles ++
            [{ id := u.id, email := u.email, full_name := fn, phone := u.raw_phone,
               role := rr, company := none, skills := [] }] } : DBState)) =
          Except.error DBError.uniquePrimaryKeyViolation
        rw [if_pos h]

/-- Claim C8 witness: the concrete re-delivery for profA's identity fails. -/
theorem C8_amended_witness :
    ∃ er, handle_new_user sOnlyA uDupA = Except.error er :=
  C8_amended sOnlyA uDupA (by decide)

/-- Claim C9 counterexample: the claim asserts that reading an event is
granted exactly when the event is published or the actor is its owning
organizer.  Attendee B is not the organizer of the draft event evDraft,
yet the effective policy set grants the read: the unconditional policy
"Events are public to view" (USING true) is never dropped and permissive
policies combine with OR. -/
theorem C9_counterexample :
    canSelectEvent s0 profB.id evDraft = true ∧
    evDraft.status ≠ EventStatus.published ∧
    profB.id ≠ evDraft.organizer_id := by
  decide

/-- Claim C9 amended: every actor can read every event, whatever its
status and owner: the unconditional SELECT policy subsumes the
published-or-owner policy of the original schema. -/
theorem C9_amended (s : DBState) (uid : Nat) (e : Event) :
    canSelectEvent s uid e = true := by
  simp [canSelectEvent, policy_events_are_public_to_view]

/-- Claim C10: deleting an event cascades over the event_id foreign keys:
afterwards no registration (whatever its status, attended included),
volunteer assignment or task for the deleted event survives, and
referential integrity — every surviving row references an existing
event — is preserved. -/
theorem C10_cascade_delete (s : DBState) (eid : Nat) (h : refIntegrity s = true) :
    (∀ r ∈ (handleDeleteEvent s eid).registrations, r.event_id ≠ eid) ∧
    (∀ a ∈ (handleDeleteEvent s eid).assignments, a.event_id ≠ eid) ∧
    (∀ t ∈ (handleDeleteEvent s eid).tasks, t.event_id ≠ eid) ∧
    refIntegrity (handleDeleteEvent s eid) = true := by
  rw [refIntegrity, Bool.and_eq_true, Bool.and_eq_true] at h
  obtain ⟨⟨hA, hB⟩, hC⟩ := h
  rw [List.all_eq_true] at hA hB hC
  refine ⟨?_, ?_, ?_, ?_⟩
  · intro r hr
    obtain ⟨hmem, hne⟩ := List.mem_filter.mp hr
    simpa using hne
  · intro a ha
    obtain ⟨hmem, hne⟩ := List.mem_filter.mp ha
    simpa using hne
  · intro t ht
    obtain ⟨hmem, hne⟩ := List.mem_filter.mp ht
    simpa using hne
  · rw [refIntegrity, Bool.and_eq_true, Bool.and_eq_true]
    refine ⟨⟨?_, ?_⟩, ?_⟩
    · rw [List.all_eq_true]
      intro r hr
      obtain ⟨hmem, hne⟩ := List.mem_filter.mp hr
      obtain ⟨ev, hev, heq⟩ := List.any_eq_true.mp (hA r hmem)
      rw [beq_iff_eq] at heq
      refine List.any_eq_true.mpr ⟨ev, List.mem_filter.mpr ⟨hev, ?_⟩, by simp [heq]⟩
      rw [heq]
      exact hne
    · rw [List.all_eq_true]
      intro a ha
      obtain ⟨hmem, hne⟩ := List.mem_filter.mp ha
      obtain ⟨ev, hev, heq⟩ := List.any_eq_true.mp (hB a hmem)
      rw [beq_iff_eq] at heq
      refine List.any_eq_true.mpr ⟨ev, List.mem_filter.mpr ⟨hev, ?_⟩, by simp [heq]⟩
      rw [heq]
      exact hne
    · rw [List.all_eq_true]
      intro t ht
      obtain ⟨hmem, hne⟩ := List.mem_filter.mp ht
      obtain ⟨ev, hev, heq⟩ := List.any_eq_true.mp (hC t hmem)
      rw [beq_iff_eq] at heq
      refine List.any_eq_true.mpr ⟨ev, List.mem_filter.mpr ⟨hev, ?_⟩, by simp [heq]⟩
      rw [heq]
      exact hne

/-- Claim C10 witness: deleting event 10 from the concrete state removes
its attended registration, its volunteer assignment and its task while
keeping the store referentially intact. -/
theorem C10_cascade_delete_witness :
    refIntegrity (handleDeleteEvent sCascade 10) = true :=
  (C10_cascade_delete sCascade 10 (by decide)).2.2.2

end EventFlow
